import Mathlib

/-!
Verification development for the SimSuite Glauber-dynamics simulator
(`src/packages/glauber.py`).

The simulator's core (`Glauber` class) is embedded shallowly:

* The lattice `cells` is a total function `ℕ → ℕ → ℤ`; only the indices
  below `dimensions` are ever read or written by the embedded operations.
* The shared pseudo-random source (`np.random` in the source) is modelled
  by an explicit `Rng` value.  Each call to `glauber_procedure` consumes
  one `Step` from the stream `Rng.steps`, indexed by a running attempt
  counter carried in the simulation state; a `Step` packages the drawn
  row, the drawn column (`np.random.randint(0, dimensions)` is modelled
  by reducing the draw modulo `dimensions`), and the outcome of the
  accept/reject test of `sim_utils.determine_flip_state` as a Boolean
  function of the energy change and the temperature (for a fixed drawn
  uniform value `u`, acceptance `u < 1 / (1 + exp(dE / T))` is exactly
  such a function, so every actual behaviour of the source is an
  instance of this model).  Each call to `create_cells` consumes one
  layer of `Rng.choice`, indexed by a running creation counter.
* Temperatures are rationals; `np.arange(1, 3, 0.1)` is modelled exactly
  over `ℚ`.
* `packages/controller.py` (`SimulationPlane`) and
  `tools/utils/sim_utils.py` are not part of the supplied sources; the
  functions the claims depend on are modelled from the specification and
  are marked `Modelled from the spec` in their doc comments.
* The source accumulates observable records as strings
  `"{temp},{energy},{mag}"`; the embedding accumulates the same data as
  tuples `(temperature, total energy, total magnetisation)`.

Misspelled identifiers (`tempurature`, `avg_qauntities`,
`check_nieghbours`) are kept exactly as in the source.
-/

/-- One bundle of random draws consumed by a single call to
`glauber_procedure`: the drawn row, the drawn column, and the
accept/reject outcome of `sim_utils.determine_flip_state` as a function
of the energy change and the temperature. -/
structure Step where
  row : ℕ
  col : ℕ
  accept : ℤ → ℚ → Bool

/-- The shared pseudo-random source (`np.random`).  `choice k r c` is the
draw used for cell `(r, c)` by the `k`-th call to `create_cells`
(`true` stands for spin `+1`, `false` for `-1`, mirroring
`np.random.choice([1, -1])`); `steps k` is the bundle of draws consumed
by the `k`-th single-site update attempt of the run. -/
structure Rng where
  choice : ℕ → ℕ → ℕ → Bool
  steps : ℕ → Step

/-- The mutable state of a running simulation: the lattice `cells`, the
number of single-site update attempts performed so far (`attempts`, the
read position in `Rng.steps`), the number of `create_cells` calls so far
(`creates`, the read position in `Rng.choice`), and the observable
accumulator `avg_qauntities` (source spelling). -/
structure SimState where
  cells : ℕ → ℕ → ℤ
  attempts : ℕ
  creates : ℕ
  avg_qauntities : List (ℚ × ℤ × ℤ)

/-- Construction-time data of the `Glauber` class: `dimensions`,
`timesteps`, the mode string `sim_type` and the scalar `tempurature`
(source spelling). -/
structure Glauber where
  dimensions : ℕ
  timesteps : ℕ
  sim_type : String
  tempurature : ℚ
deriving DecidableEq

/-- Errors raised at construction. -/
inductive SimError where
  | invalidParameter
deriving DecidableEq

/-- Modelled from the spec: `SimulationPlane.__init__`
(`packages/controller.py`, not under `src/`) validates the construction
parameters — "Invalid dimensions/timesteps (≤ 0): fail fast at
construction with an InvalidParameter error" — and otherwise stores
them.  Parameters arrive as integers; the validated sizes are returned
as naturals. -/
def simulation_plane_init (dimensions timesteps : ℤ) : Except SimError (ℕ × ℕ) :=
  if dimensions ≤ 0 ∨ timesteps ≤ 0 then Except.error SimError.invalidParameter
  else Except.ok (dimensions.toNat, timesteps.toNat)

/-- `Glauber.__init__`: delegates to `SimulationPlane.__init__` and then
stores `tempurature` and `sim_type`. -/
def glauber_init (dimensions timesteps : ℤ) (sim_type : String) (tempurature : ℚ) :
    Except SimError Glauber :=
  (simulation_plane_init dimensions timesteps).map fun p =>
    { dimensions := p.1, timesteps := p.2, sim_type := sim_type, tempurature := tempurature }

/-- `Glauber.create_cells`:
`self.cells = np.random.choice([1, -1], size=(dimensions, dimensions))`.
Every cell is drawn independently from `{+1, -1}`; the draw layer is the
current value of the creation counter, which is then advanced. -/
def create_cells (n : ℕ) (rng : Rng) (s : SimState) : SimState :=
  { s with
    cells := fun r c => if rng.choice s.creates r c then 1 else -1,
    creates := s.creates + 1 }

/-- Modelled from the spec: `SimulationPlane.check_nieghbours`
(`packages/controller.py`, not under `src/`) returns the spin at the
coordinate together with its four periodic nearest-neighbour spins
(§4.1: `(row-1 mod N, col)`, `(row+1 mod N, col)`, `(row, col-1 mod N)`,
`(row, col+1 mod N)`). -/
def plane_check_nieghbours (n : ℕ) (cells : ℕ → ℕ → ℤ) (row col : ℕ) : ℤ × List ℤ :=
  (cells row col,
   [cells ((row + (n - 1)) % n) col, cells ((row + 1) % n) col,
    cells row ((col + (n - 1)) % n), cells row ((col + 1) % n)])

/-- Modelled from the spec: `sim_utils.determine_energy_change`
(`tools/utils/sim_utils.py`, not under `src/`) computes
`ΔE = 2 · J · s · (sum of neighbour spins)` with `J = 1` (§4.2). -/
def determine_energy_change (member : ℤ) (nieghbours : List ℤ) : ℤ :=
  2 * member * nieghbours.sum

/-- `Glauber.check_nieghbours`: queries the base class for the member
and its periodic neighbours, then computes the energy change. -/
def check_nieghbours (n : ℕ) (cells : ℕ → ℕ → ℤ) (row col : ℕ) : ℤ :=
  determine_energy_change (plane_check_nieghbours n cells row col).1
    (plane_check_nieghbours n cells row col).2

/-- Modelled from the spec: `sim_utils.flip_array_state`
(`tools/utils/sim_utils.py`, not under `src/`) negates the spin
(§4.4: "if accepted, negate the spin at (row,col)"). -/
def flip_array_state (s : ℤ) : ℤ := -s

/-- Point update of the lattice, modelling
`self.cells[random_row, random_col] = newState`. -/
def set_cell (cells : ℕ → ℕ → ℤ) (row col : ℕ) (v : ℤ) (r c : ℕ) : ℤ :=
  if r = row ∧ c = col then v else cells r c

/-- The row drawn by the next single-site update attempt
(`np.random.randint(0, dimensions)`). -/
def chosen_row (n : ℕ) (rng : Rng) (s : SimState) : ℕ :=
  (rng.steps s.attempts).row % n

/-- The column drawn by the next single-site update attempt. -/
def chosen_col (n : ℕ) (rng : Rng) (s : SimState) : ℕ :=
  (rng.steps s.attempts).col % n

/-- The accept/reject outcome of `sim_utils.determine_flip_state` for the
next single-site update attempt, at the energy change of the drawn site
and the given temperature. -/
def accepted (n : ℕ) (temp : ℚ) (rng : Rng) (s : SimState) : Bool :=
  (rng.steps s.attempts).accept
    (check_nieghbours n s.cells (chosen_row n rng s) (chosen_col n rng s)) temp

/-- `Glauber.glauber_procedure`: draw a random site, compute the energy
change of flipping it, decide acceptance via
`sim_utils.determine_flip_state`, and if accepted overwrite the site
with the flipped spin.  One bundle of random draws is consumed. -/
def glauber_procedure (n : ℕ) (temp : ℚ) (rng : Rng) (s : SimState) : SimState :=
  { s with
    attempts := s.attempts + 1,
    cells :=
      if accepted n temp rng s then
        set_cell s.cells (chosen_row n rng s) (chosen_col n rng s)
          (flip_array_state (s.cells (chosen_row n rng s) (chosen_col n rng s)))
      else s.cells }

/-- The inner loop of `start_full_sim` (lines 65–66):
`for j in range(self.dimensions ** 2): self.glauber_procedure(temp)` —
one Monte Carlo sweep of `dimensions ** 2` update attempts. -/
def sweep (n : ℕ) (temp : ℚ) (rng : Rng) (s : SimState) : SimState :=
  (List.range (n ^ 2)).foldl (fun s _ => glauber_procedure n temp rng s) s

/-- `Glauber.anim_func` (lines 81–82), the visual-mode frame advance:
`for i in range(self.dimensions ** 2): self.glauber_procedure(self.tempurature)`
followed by handing the lattice to the external renderer (out of scope). -/
def anim_func (g : Glauber) (rng : Rng) (s : SimState) : SimState :=
  (List.range (g.dimensions ^ 2)).foldl
    (fun s _ => glauber_procedure g.dimensions g.tempurature rng s) s

/-- Modelled from the spec: `sim_utils.calculate_total_energy`
(`tools/utils/sim_utils.py`, not under `src/`), §4.7:
`total_energy = −J · Σ` over undirected nearest-neighbour bonds of
`spin_i · spin_j`, `J = 1`; each bond is counted once via its right and
down neighbour with periodic wrap. -/
def calculate_total_energy (n : ℕ) (cells : ℕ → ℕ → ℤ) : ℤ :=
  -(Finset.sum (Finset.range n) fun r => Finset.sum (Finset.range n) fun c =>
      cells r c * (cells ((r + 1) % n) c + cells r ((c + 1) % n)))

/-- Modelled from the spec: `sim_utils.calculate_total_mag`
(`tools/utils/sim_utils.py`, not under `src/`), §4.7:
`total_magnetization = Σ_i spin_i`. -/
def calculate_total_mag (n : ℕ) (cells : ℕ → ℕ → ℤ) : ℤ :=
  Finset.sum (Finset.range n) fun r => Finset.sum (Finset.range n) fun c => cells r c

/-- `Glauber.calculate_averages`: sample the observables of the current
lattice and append the record to `avg_qauntities` (the source formats
the record as the string `"{temp},{energy},{mag}"`; the embedding keeps
the same data as a tuple). -/
def calculate_averages (n : ℕ) (tempurature : ℚ) (s : SimState) : SimState :=
  { s with
    avg_qauntities := s.avg_qauntities ++
      [(tempurature, calculate_total_energy n s.cells, calculate_total_mag n s.cells)] }

/-- The body of one iteration of the sweep loop of `start_full_sim`
(lines 62–68): run one sweep, then
`if i >= 99 and i % 10 == 0: self.calculate_averages(temp)`
(the progress print at `i % 10 == 0` is external logging with no state). -/
def sweep_step (n : ℕ) (rng : Rng) (temp : ℚ) (s : SimState) (i : ℕ) : SimState :=
  let s1 := sweep n temp rng s
  if 99 ≤ i ∧ i % 10 = 0 then calculate_averages n temp s1 else s1

/-- The first `k` iterations of the sweep loop
`for i in range(self.timesteps)` of `start_full_sim`. -/
def run_sweeps (n : ℕ) (rng : Rng) (temp : ℚ) (s : SimState) (k : ℕ) : SimState :=
  (List.range k).foldl (sweep_step n rng temp) s

/-- The body of the temperature loop of `start_full_sim` (lines 59–68):
`self.create_cells()` then the sweep loop for this temperature. -/
def run_temperature (n timesteps : ℕ) (rng : Rng) (temp : ℚ) (s : SimState) : SimState :=
  run_sweeps n rng temp (create_cells n rng s) timesteps

/-- The sweep indices of `0 .. timesteps−1` at which `start_full_sim`
samples observables: exactly those with `i >= 99 and i % 10 == 0`
(line 67). -/
def sampled_indices (timesteps : ℕ) : List ℕ :=
  (List.range timesteps).filter fun i => decide (99 ≤ i ∧ i % 10 = 0)

/-- `np.arange(start, stop, step)` over exact rationals: the values
`start + k · step` for `k = 0 .. ⌈(stop − start) / step⌉ − 1`. -/
def np_arange (start stop step : ℚ) : List ℚ :=
  (List.range (⌈(stop - start) / step⌉).toNat).map fun k => start + (k : ℚ) * step

/-- The fixed full-mode temperature schedule,
`self.tempurature = np.arange(1, 3, 0.1)` (line 52). -/
def temps_schedule : List ℚ := np_arange 1 3 (1 / 10)

/-- `Glauber.start_full_sim` (lines 55–69): reset the observable
accumulator (`self.avg_qauntities = []`), then for each temperature of
the schedule re-create the lattice and run the sweep loop.
`self.warning_message()` and `self.finished_sim()` are external I/O
collaborators with no effect on the simulation state. -/
def start_full_sim (n timesteps : ℕ) (rng : Rng) (s : SimState) : SimState :=
  temps_schedule.foldl (fun s temp => run_temperature n timesteps rng temp s)
    { s with avg_qauntities := [] }

/-- The two behaviours `Glauber.start_sim` can dispatch to: the visual
branch (create cells, build the figure and start the animation loop —
the figure and animation are external collaborators, so the embedding
records the state after `create_cells`) and the full branch (the state
after `start_full_sim`). -/
inductive SimOutcome where
  | visualStarted (s : SimState)
  | fullDone (s : SimState)

/-- Python's `str.lower()`: lowercase every character of the string
(Lean's `String.toLower` is definitionally equal but is defined by
well-founded recursion, which blocks kernel evaluation). -/
def py_lower (s : String) : String := ⟨s.data.map Char.toLower⟩

/-- `Glauber.start_sim` (lines 43–53): if `self.sim_type.lower() ==
"visual"` run the visual simulation, otherwise set the temperature
schedule to `np.arange(1, 3, 0.1)` and run the full simulation. -/
def start_sim (g : Glauber) (rng : Rng) (s : SimState) : SimOutcome :=
  if py_lower g.sim_type = "visual" then
    SimOutcome.visualStarted (create_cells g.dimensions rng s)
  else
    SimOutcome.fullDone (start_full_sim g.dimensions g.timesteps rng s)

/-- The lattice invariant: every cell holds spin `+1` or `-1`. -/
def AllSpins (cells : ℕ → ℕ → ℤ) : Prop :=
  ∀ r c, cells r c = 1 ∨ cells r c = -1

/-- A concrete random source used to instantiate universally quantified
theorems: every `create_cells` draw is `+1` and every accept/reject test
rejects. -/
def trivialRng : Rng :=
  { choice := fun _ _ _ => true,
    steps := fun _ => { row := 0, col := 0, accept := fun _ _ => false } }

/-- A concrete starting state: the all-`+1` lattice, both random-stream
positions at `0`, empty accumulator. -/
def state0 : SimState :=
  { cells := fun _ _ => 1, attempts := 0, creates := 0, avg_qauntities := [] }

/-! ## Basic lemmas about single update attempts and sweeps -/

lemma glauber_procedure_attempts (n : ℕ) (temp : ℚ) (rng : Rng) (s : SimState) :
    (glauber_procedure n temp rng s).attempts = s.attempts + 1 := rfl

lemma glauber_procedure_avg (n : ℕ) (temp : ℚ) (rng : Rng) (s : SimState) :
    (glauber_procedure n temp rng s).avg_qauntities = s.avg_qauntities := rfl

lemma glauber_procedure_cells (n : ℕ) (temp : ℚ) (rng : Rng) (s : SimState) :
    (glauber_procedure n temp rng s).cells
      = if accepted n temp rng s then
          set_cell s.cells (chosen_row n rng s) (chosen_col n rng s)
            (flip_array_state (s.cells (chosen_row n rng s) (chosen_col n rng s)))
        else s.cells := rfl

lemma foldl_glauber_attempts (n : ℕ) (temp : ℚ) (rng : Rng) :
    ∀ (l : List ℕ) (s : SimState),
      (l.foldl (fun s _ => glauber_procedure n temp rng s) s).attempts
        = s.attempts + l.length := by
  intro l
  induction l with
  | nil => intro s; rfl
  | cons a l ih =>
      intro s
      rw [List.foldl_cons, ih, glauber_procedure_attempts, List.length_cons]
      omega

lemma foldl_glauber_avg (n : ℕ) (temp : ℚ) (rng : Rng) :
    ∀ (l : List ℕ) (s : SimState),
      (l.foldl (fun s _ => glauber_procedure n temp rng s) s).avg_qauntities
        = s.avg_qauntities := by
  intro l
  induction l with
  | nil => intro s; rfl
  | cons a l ih =>
      intro s
      rw [List.foldl_cons, ih, glauber_procedure_avg]

lemma sweep_attempts (n : ℕ) (temp : ℚ) (rng : Rng) (s : SimState) :
    (sweep n temp rng s).attempts = s.attempts + n ^ 2 := by
  have h := foldl_glauber_attempts n temp rng (List.range (n ^ 2)) s
  simpa [sweep] using h

lemma sweep_avg (n : ℕ) (temp : ℚ) (rng : Rng) (s : SimState) :
    (sweep n temp rng s).avg_qauntities = s.avg_qauntities :=
  foldl_glauber_avg n temp rng (List.range (n ^ 2)) s

lemma anim_func_attempts (g : Glauber) (rng : Rng) (s : SimState) :
    (anim_func g rng s).attempts = s.attempts + g.dimensions ^ 2 := by
  have h := foldl_glauber_attempts g.dimensions g.tempurature rng
    (List.range (g.dimensions ^ 2)) s
  simpa [anim_func] using h

/-! ## Lemmas about the sampling schedule of the full simulation -/

lemma calculate_averages_avg (n : ℕ) (temp : ℚ) (s : SimState) :
    (calculate_averages n temp s).avg_qauntities
      = s.avg_qauntities ++
        [(temp, calculate_total_energy n s.cells, calculate_total_mag n s.cells)] := rfl

lemma sweep_step_avg_length (n : ℕ) (rng : Rng) (temp : ℚ) (s : SimState) (i : ℕ) :
    (sweep_step n rng temp s i).avg_qauntities.length
      = s.avg_qauntities.length + (if 99 ≤ i ∧ i % 10 = 0 then 1 else 0) := by
  unfold sweep_step
  by_cases h : 99 ≤ i ∧ i % 10 = 0
  · simp [h, calculate_averages_avg, sweep_avg]
  · simp [h, sweep_avg]

lemma sweep_step_avg_of_not (n : ℕ) (rng : Rng) (temp : ℚ) (s : SimState) (i : ℕ)
    (h : ¬(99 ≤ i ∧ i % 10 = 0)) :
    (sweep_step n rng temp s i).avg_qauntities = s.avg_qauntities := by
  unfold sweep_step
  simp [h, sweep_avg]

lemma run_sweeps_succ (n : ℕ) (rng : Rng) (temp : ℚ) (s : SimState) (k : ℕ) :
    run_sweeps n rng temp s (k + 1)
      = sweep_step n rng temp (run_sweeps n rng temp s k) k := by
  unfold run_sweeps
  rw [List.range_succ, List.foldl_append]
  rfl

lemma sampled_indices_succ (k : ℕ) :
    sampled_indices (k + 1)
      = sampled_indices k ++ if 99 ≤ k ∧ k % 10 = 0 then [k] else [] := by
  unfold sampled_indices
  rw [List.range_succ, List.filter_append]
  by_cases h : 99 ≤ k ∧ k % 10 = 0
  · simp [h]
  · simp [h]

lemma run_sweeps_avg_length (n : ℕ) (rng : Rng) (temp : ℚ) (s : SimState) :
    ∀ k, (run_sweeps n rng temp s k).avg_qauntities.length
      = s.avg_qauntities.length + (sampled_indices k).length := by
  intro k
  induction k with
  | zero => rfl
  | succ k ih =>
      rw [run_sweeps_succ, sweep_step_avg_length, ih, sampled_indices_succ]
      by_cases h : 99 ≤ k ∧ k % 10 = 0
      · simp [h]
        omega
      · simp [h]

lemma run_sweeps_avg_eq (n : ℕ) (rng : Rng) (temp : ℚ) (s : SimState) :
    ∀ k, (∀ i, i < k → ¬(99 ≤ i ∧ i % 10 = 0)) →
      (run_sweeps n rng temp s k).avg_qauntities = s.avg_qauntities := by
  intro k
  induction k with
  | zero => intro _; rfl
  | succ k ih =>
      intro h
      rw [run_sweeps_succ, sweep_step_avg_of_not _ _ _ _ _ (h k (by omega))]
      exact ih (fun i hi => h i (by omega))

lemma create_cells_avg (n : ℕ) (rng : Rng) (s : SimState) :
    (create_cells n rng s).avg_qauntities = s.avg_qauntities := rfl

lemma run_temperature_avg_length (n ts : ℕ) (rng : Rng) (temp : ℚ) (s : SimState) :
    (run_temperature n ts rng temp s).avg_qauntities.length
      = s.avg_qauntities.length + (sampled_indices ts).length := by
  unfold run_temperature
  rw [run_sweeps_avg_length, create_cells_avg]

lemma run_temperature_avg_of_lt (n ts : ℕ) (rng : Rng) (temp : ℚ) (s : SimState)
    (h : ts < 100) :
    (run_temperature n ts rng temp s).avg_qauntities = s.avg_qauntities := by
  unfold run_temperature
  rw [run_sweeps_avg_eq n rng temp _ ts (fun i hi hc => by omega), create_cells_avg]

/-! ## Lemmas about the temperature loop -/

lemma foldl_temps_avg_length (n ts : ℕ) (rng : Rng) :
    ∀ (l : List ℚ) (s : SimState),
      ((l.foldl (fun s temp => run_temperature n ts rng temp s) s).avg_qauntities.length)
        = s.avg_qauntities.length + l.length * (sampled_indices ts).length := by
  intro l
  induction l with
  | nil => intro s; simp
  | cons t l ih =>
      intro s
      rw [List.foldl_cons, ih, run_temperature_avg_length, List.length_cons]
      ring

lemma foldl_temps_avg_eq (n ts : ℕ) (rng : Rng) (h : ts < 100) :
    ∀ (l : List ℚ) (s : SimState),
      (l.foldl (fun s temp => run_temperature n ts rng temp s) s).avg_qauntities
        = s.avg_qauntities := by
  intro l
  induction l with
  | nil => intro s; rfl
  | cons t l ih =>
      intro s
      rw [List.foldl_cons, ih, run_temperature_avg_of_lt n ts rng t s h]

lemma temps_schedule_eq :
    temps_schedule
      = [1, 11/10, 6/5, 13/10, 7/5, 3/2, 8/5, 17/10, 9/5, 19/10,
         2, 21/10, 11/5, 23/10, 12/5, 5/2, 13/5, 27/10, 14/5, 29/10] := by
  unfold temps_schedule np_arange
  rw [show ⌈((3 : ℚ) - 1) / (1 / 10)⌉ = 20 from by norm_num]
  rw [show (20 : ℤ).toNat = 20 from rfl]
  rw [show List.range 20
      = [0, 1, 2, 3, 4, 5, 6, 7, 8, 9, 10, 11, 12, 13, 14, 15, 16, 17, 18, 19] from rfl]
  norm_num [List.map_cons, List.cons.injEq]

lemma temps_schedule_length : temps_schedule.length = 20 := by
  rw [temps_schedule_eq]
  rfl

lemma start_full_sim_avg_length (n ts : ℕ) (rng : Rng) (s : SimState) :
    (start_full_sim n ts rng s).avg_qauntities.length
      = 20 * (sampled_indices ts).length := by
  unfold start_full_sim
  rw [foldl_temps_avg_length, temps_schedule_length]
  simp

lemma start_full_sim_avg_of_lt (n ts : ℕ) (rng : Rng) (s : SimState) (h : ts < 100) :
    (start_full_sim n ts rng s).avg_qauntities = [] := by
  unfold start_full_sim
  rw [foldl_temps_avg_eq n ts rng h]

lemma sampled_indices_150 :
    sampled_indices 150 = [100, 110, 120, 130, 140] := by
  decide

lemma sampled_indices_150_length : (sampled_indices 150).length = 5 := by
  rw [sampled_indices_150]
  rfl

/-! ## Lemmas about the lattice invariant -/

lemma create_cells_allSpins (n : ℕ) (rng : Rng) (s : SimState) :
    AllSpins (create_cells n rng s).cells := by
  intro r c
  show (if rng.choice s.creates r c then (1 : ℤ) else -1) = 1 ∨
    (if rng.choice s.creates r c then (1 : ℤ) else -1) = -1
  by_cases h : rng.choice s.creates r c
  · rw [if_pos h]
    left
    rfl
  · rw [if_neg h]
    right
    rfl

lemma set_cell_allSpins (cells : ℕ → ℕ → ℤ) (row col : ℕ) (v : ℤ)
    (h : AllSpins cells) (hv : v = 1 ∨ v = -1) :
    AllSpins (set_cell cells row col v) := by
  intro r c
  unfold set_cell
  by_cases hrc : r = row ∧ c = col
  · rw [if_pos hrc]
    exact hv
  · rw [if_neg hrc]
    exact h r c

lemma glauber_procedure_allSpins (n : ℕ) (temp : ℚ) (rng : Rng) (s : SimState)
    (h : AllSpins s.cells) : AllSpins (glauber_procedure n temp rng s).cells := by
  rw [glauber_procedure_cells]
  by_cases hacc : accepted n temp rng s = true
  · rw [if_pos hacc]
    apply set_cell_allSpins _ _ _ _ h
    unfold flip_array_state
    rcases h (chosen_row n rng s) (chosen_col n rng s) with h1 | h1 <;> rw [h1] <;> omega
  · rw [if_neg hacc]
    exact h

lemma foldl_glauber_allSpins (n : ℕ) (rng : Rng) :
    ∀ (l : List ℚ) (s : SimState), AllSpins s.cells →
      AllSpins ((l.foldl (fun s t => glauber_procedure n t rng s) s).cells) := by
  intro l
  induction l with
  | nil => intro s h; exact h
  | cons t l ih =>
      intro s h
      rw [List.foldl_cons]
      exact ih _ (glauber_procedure_allSpins n t rng s h)

/-! ## Claim theorems -/

/-- C1 (counterexample). The claim asserts that in Full mode with
`timesteps = 150` samples occur at sweep indices `{99, 109, ..., 149}`,
six per temperature.  Running one temperature of the full simulation
with `timesteps = 150` on a concrete random source records five
samples, not six: `99 % 10 = 9`, so sampling starts at sweep index
`100`, not `99`. -/
theorem six_samples_per_temperature_counterexample :
    (run_temperature 1 150 trivialRng 1 state0).avg_qauntities.length = 5 ∧
    ¬ (run_temperature 1 150 trivialRng 1 state0).avg_qauntities.length = 6 := by
  have h : (run_temperature 1 150 trivialRng 1 state0).avg_qauntities.length
      = state0.avg_qauntities.length + (sampled_indices 150).length :=
    run_temperature_avg_length 1 150 trivialRng 1 state0
  rw [sampled_indices_150_length] at h
  constructor
  · rw [h]
    rfl
  · rw [h]
    decide

/-- C1 (amended). In Full mode, for every temperature in the schedule,
with `timesteps = 150` observable samples occur exactly at the sweep
indices satisfying `i ≥ 99 ∧ i % 10 = 0`, namely
`{100, 110, 120, 130, 140}` — five samples per temperature, a hundred
over the twenty-temperature schedule; with `timesteps = 50` zero
samples are ever recorded. -/
theorem five_samples_per_temperature :
    sampled_indices 150 = [100, 110, 120, 130, 140]
    ∧ (∀ (n : ℕ) (rng : Rng) (t : ℚ) (s : SimState),
        (run_temperature n 150 rng t s).avg_qauntities.length
          = s.avg_qauntities.length + 5)
    ∧ (∀ (n : ℕ) (rng : Rng) (s : SimState),
        (start_full_sim n 150 rng s).avg_qauntities.length = 100)
    ∧ (∀ (n : ℕ) (rng : Rng) (t : ℚ) (s : SimState),
        (run_temperature n 50 rng t s).avg_qauntities = s.avg_qauntities)
    ∧ (∀ (n : ℕ) (rng : Rng) (s : SimState),
        (start_full_sim n 50 rng s).avg_qauntities = []) := by
  refine ⟨sampled_indices_150, ?_, ?_, ?_, ?_⟩
  · intro n rng t s
    rw [run_temperature_avg_length, sampled_indices_150_length]
  · intro n rng s
    rw [start_full_sim_avg_length, sampled_indices_150_length]
  · intro n rng t s
    exact run_temperature_avg_of_lt n 50 rng t s (by omega)
  · intro n rng s
    exact start_full_sim_avg_of_lt n 50 rng s (by omega)

/-- C2 (confirmed). In Full mode, for every temperature and every sweep
index `i`, an observable sample is appended to the accumulator after
sweep `i` if and only if `i ≥ 99 ∧ i % 10 = 0` (the accumulator grows
by one element at exactly those loop iterations); consequently every
full run with `timesteps < 100` ends with an empty observable sequence. -/
theorem sample_appended_iff_thermalized :
    (∀ (n : ℕ) (rng : Rng) (temp : ℚ) (s : SimState) (i : ℕ),
        ((run_sweeps n rng temp s (i + 1)).avg_qauntities.length
            = (run_sweeps n rng temp s i).avg_qauntities.length + 1)
          ↔ (99 ≤ i ∧ i % 10 = 0))
    ∧ (∀ (n ts : ℕ) (rng : Rng) (s : SimState), ts < 100 →
        (start_full_sim n ts rng s).avg_qauntities = []) := by
  constructor
  · intro n rng temp s i
    rw [run_sweeps_succ, sweep_step_avg_length]
    constructor
    · intro h
      by_contra hc
      rw [if_neg hc] at h
      omega
    · intro hc
      rw [if_pos hc]
  · intro n ts rng s h
    exact start_full_sim_avg_of_lt n ts rng s h

/-- Witness for C2: at sweep index `100` of a concrete run one sample is
appended, and a concrete full run with `timesteps = 2 < 100` ends with
an empty observable sequence. -/
theorem sample_appended_iff_thermalized_witness :
    ((run_sweeps 1 trivialRng 1 state0 101).avg_qauntities.length
        = (run_sweeps 1 trivialRng 1 state0 100).avg_qauntities.length + 1)
    ∧ (start_full_sim 1 2 trivialRng state0).avg_qauntities = [] :=
  ⟨(sample_appended_iff_thermalized.1 1 trivialRng 1 state0 100).mpr (by decide),
   sample_appended_iff_thermalized.2 1 2 trivialRng state0 (by decide)⟩

/-- C3 (confirmed, against the spec-modelled `SimulationPlane.__init__`).
Constructing a simulation with `dimensions ≤ 0` or `timesteps ≤ 0` fails
fast with an `invalidParameter` error, and a successful construction
implies both parameters were positive (so the core never holds
non-positive sizes). -/
theorem construction_rejects_nonpositive :
    ∀ (d t : ℤ) (st : String) (tp : ℚ),
      ((d ≤ 0 ∨ t ≤ 0) →
        glauber_init d t st tp = Except.error SimError.invalidParameter)
      ∧ (∀ g, glauber_init d t st tp = Except.ok g → 0 < d ∧ 0 < t) := by
  intro d t st tp
  constructor
  · intro h
    unfold glauber_init simulation_plane_init
    rw [if_pos h]
    rfl
  · intro g hg
    by_contra hpos
    have h : d ≤ 0 ∨ t ≤ 0 := by omega
    unfold glauber_init simulation_plane_init at hg
    rw [if_pos h] at hg
    exact Except.noConfusion hg

/-- Witness for C3: constructing with `dimensions = -1` is rejected with
`invalidParameter`, and the successful construction with `dimensions = 3`,
`timesteps = 4` implies both are positive. -/
theorem construction_rejects_nonpositive_witness :
    glauber_init (-1) 5 "full" 1 = Except.error SimError.invalidParameter
    ∧ (0 < (3 : ℤ) ∧ 0 < (4 : ℤ)) :=
  ⟨(construction_rejects_nonpositive (-1) 5 "full" 1).1 (by decide),
   (construction_rejects_nonpositive 3 4 "full" 1).2 ⟨3, 4, "full", 1⟩ rfl⟩

/-- C4 (confirmed). In Full mode the temperature schedule iterated is
exactly `np.arange(1, 3, 0.1) = [1.0, 1.1, ..., 2.9]` (20 values); the
result of a non-visual `start_sim` is independent of the scalar
temperature supplied at construction; the full run folds over exactly
that schedule; each temperature first re-creates the lattice before its
sweeps; and the re-created lattice is a fresh configuration read off the
random source alone. -/
theorem full_mode_schedule_and_reinit :
    temps_schedule
      = [1, 11/10, 6/5, 13/10, 7/5, 3/2, 8/5, 17/10, 9/5, 19/10,
         2, 21/10, 11/5, 23/10, 12/5, 5/2, 13/5, 27/10, 14/5, 29/10]
    ∧ temps_schedule.length = 20
    ∧ (∀ (d ts : ℕ) (st : String) (tp1 tp2 : ℚ) (rng : Rng) (s : SimState),
        py_lower st ≠ "visual" →
          start_sim ⟨d, ts, st, tp1⟩ rng s = start_sim ⟨d, ts, st, tp2⟩ rng s)
    ∧ (∀ (n ts : ℕ) (rng : Rng) (s : SimState),
        start_full_sim n ts rng s
          = temps_schedule.foldl (fun s temp => run_temperature n ts rng temp s)
              { s with avg_qauntities := [] })
    ∧ (∀ (n ts : ℕ) (rng : Rng) (temp : ℚ) (s : SimState),
        run_temperature n ts rng temp s = run_sweeps n rng temp (create_cells n rng s) ts)
    ∧ (∀ (n : ℕ) (rng : Rng) (s : SimState) (r c : ℕ),
        (create_cells n rng s).cells r c
          = if rng.choice s.creates r c then 1 else -1) := by
  refine ⟨temps_schedule_eq, temps_schedule_length, ?_,
    fun n ts rng s => rfl, fun n ts rng temp s => rfl, fun n rng s r c => rfl⟩
  intro d ts st tp1 tp2 rng s h
  unfold start_sim
  simp only [if_neg h]

/-- Witness for C4: a non-visual run with scalar temperature `1` equals
the same run with scalar temperature `2`. -/
theorem full_mode_schedule_and_reinit_witness :
    start_sim ⟨2, 5, "full", 1⟩ trivialRng state0
      = start_sim ⟨2, 5, "full", 2⟩ trivialRng state0 :=
  full_mode_schedule_and_reinit.2.2.1 2 5 "full" 1 2 trivialRng state0 (by decide)

/-- C5 (confirmed). One sweep — both the inner loop of the full
simulation and the visual frame advance `anim_func` — performs exactly
`dimensions ^ 2` single-site update attempts, and every single attempt
consumes exactly one fresh bundle of random draws (so sites are
re-sampled independently, with replacement). -/
theorem sweep_is_n_squared_attempts :
    (∀ (n : ℕ) (temp : ℚ) (rng : Rng) (s : SimState),
        (sweep n temp rng s).attempts = s.attempts + n ^ 2)
    ∧ (∀ (g : Glauber) (rng : Rng) (s : SimState),
        (anim_func g rng s).attempts = s.attempts + g.dimensions ^ 2)
    ∧ (∀ (n : ℕ) (temp : ℚ) (rng : Rng) (s : SimState),
        (glauber_procedure n temp rng s).attempts = s.attempts + 1) :=
  ⟨sweep_attempts, anim_func_attempts, glauber_procedure_attempts⟩

/-- C6 (confirmed). Every lattice cell is exactly `+1` or `-1` in all
reachable states: after initialisation by `create_cells`, after any
single update attempt from a state satisfying the invariant, and after
any sequence of single-site update attempts following an
initialisation. -/
theorem lattice_cells_pm_one :
    (∀ (n : ℕ) (rng : Rng) (s : SimState), AllSpins (create_cells n rng s).cells)
    ∧ (∀ (n : ℕ) (temp : ℚ) (rng : Rng) (s : SimState),
        AllSpins s.cells → AllSpins (glauber_procedure n temp rng s).cells)
    ∧ (∀ (n : ℕ) (rng : Rng) (s : SimState) (l : List ℚ),
        AllSpins ((l.foldl (fun s t => glauber_procedure n t rng s)
          (create_cells n rng s)).cells)) :=
  ⟨create_cells_allSpins, glauber_procedure_allSpins,
   fun n rng s l => foldl_glauber_allSpins n rng l (create_cells n rng s)
     (create_cells_allSpins n rng s)⟩

/-- Witness for C6: the invariant holds after one update attempt from
the concrete all-`+1` state. -/
theorem lattice_cells_pm_one_witness :
    AllSpins (glauber_procedure 2 1 trivialRng state0).cells :=
  lattice_cells_pm_one.2.1 2 1 trivialRng state0 (fun _ _ => Or.inl rfl)

/-- C7 (confirmed). A single update attempt mutates at most the one
drawn cell: every other cell is unchanged; if the flip is accepted the
drawn cell is negated; if it is rejected the whole lattice is unchanged. -/
theorem glauber_procedure_frame :
    ∀ (n : ℕ) (temp : ℚ) (rng : Rng) (s : SimState),
      (∀ r c, ¬(r = chosen_row n rng s ∧ c = chosen_col n rng s) →
          (glauber_procedure n temp rng s).cells r c = s.cells r c)
      ∧ (accepted n temp rng s = true →
          (glauber_procedure n temp rng s).cells (chosen_row n rng s) (chosen_col n rng s)
            = - s.cells (chosen_row n rng s) (chosen_col n rng s))
      ∧ (accepted n temp rng s = false →
          (glauber_procedure n temp rng s).cells = s.cells) := by
  intro n temp rng s
  refine ⟨?_, ?_, ?_⟩
  · intro r c hrc
    rw [glauber_procedure_cells]
    by_cases hacc : accepted n temp rng s = true
    · rw [if_pos hacc]
      unfold set_cell
      rw [if_neg hrc]
    · rw [if_neg hacc]
  · intro hacc
    rw [glauber_procedure_cells, if_pos hacc]
    unfold set_cell
    rw [if_pos ⟨rfl, rfl⟩]
    rfl
  · intro hacc
    rw [glauber_procedure_cells, hacc]
    simp

/-- Witness for C7: with a rejecting random source, a concrete update
attempt leaves the cell `(1,1)` and indeed the whole lattice unchanged. -/
theorem glauber_procedure_frame_witness :
    (glauber_procedure 2 1 trivialRng state0).cells 1 1 = state0.cells 1 1
    ∧ (glauber_procedure 2 1 trivialRng state0).cells = state0.cells :=
  ⟨(glauber_procedure_frame 2 1 trivialRng state0).1 1 1 (by decide),
   (glauber_procedure_frame 2 1 trivialRng state0).2.2 rfl⟩

/-- C8 (confirmed). When the mode string supplied at construction is not
recognised as the visual mode (its lowercase form differs from
`"visual"`), `start_sim` falls back to the full/batch simulation rather
than raising an error. -/
theorem unrecognized_mode_falls_back_to_full :
    ∀ (g : Glauber) (rng : Rng) (s : SimState), py_lower g.sim_type ≠ "visual" →
      start_sim g rng s
        = SimOutcome.fullDone (start_full_sim g.dimensions g.timesteps rng s) := by
  intro g rng s h
  unfold start_sim
  rw [if_neg h]

/-- Witness for C8: the unrecognised mode string `"batch"` runs the full
simulation. -/
theorem unrecognized_mode_falls_back_to_full_witness :
    start_sim ⟨2, 3, "batch", 1⟩ trivialRng state0
      = SimOutcome.fullDone (start_full_sim 2 3 trivialRng state0) :=
  unrecognized_mode_falls_back_to_full ⟨2, 3, "batch", 1⟩ trivialRng state0 (by decide)

/-- C9 (confirmed). The embedded run is a deterministic function of the
pseudo-random source: two independent full-mode runs with identical
parameters and the same fixed random source (same seed) produce
identical observable sequences. -/
theorem full_sim_deterministic :
    ∀ (n ts : ℕ) (rng1 rng2 : Rng) (s : SimState), rng1 = rng2 →
      (start_full_sim n ts rng1 s).avg_qauntities
        = (start_full_sim n ts rng2 s).avg_qauntities := by
  intro n ts rng1 rng2 s h
  rw [h]

/-- Witness for C9: two runs over the same concrete random source agree. -/
theorem full_sim_deterministic_witness :
    (start_full_sim 2 3 trivialRng state0).avg_qauntities
      = (start_full_sim 2 3 trivialRng state0).avg_qauntities :=
  full_sim_deterministic 2 3 trivialRng trivialRng state0 rfl

/-- C10 (confirmed). Mode selection is case-insensitive: `start_sim`
enters the visual branch exactly when the lowercase form of the mode
string is `"visual"`, and every other string selects the full/batch
behaviour. -/
theorem mode_selection_case_insensitive :
    ∀ (g : Glauber) (rng : Rng) (s : SimState),
      (start_sim g rng s = SimOutcome.visualStarted (create_cells g.dimensions rng s)
        ↔ py_lower g.sim_type = "visual")
      ∧ (py_lower g.sim_type ≠ "visual" →
          start_sim g rng s
            = SimOutcome.fullDone (start_full_sim g.dimensions g.timesteps rng s)) := by
  intro g rng s
  constructor
  · constructor
    · intro h
      by_contra hmode
      unfold start_sim at h
      rw [if_neg hmode] at h
      exact SimOutcome.noConfusion h
    · intro h
      unfold start_sim
      rw [if_pos h]
  · intro h
    unfold start_sim
    rw [if_neg h]

/-- Witness for C10: `"VISUAL"` selects the visual branch and `"Banana"`
selects the full branch. -/
theorem mode_selection_case_insensitive_witness :
    start_sim ⟨3, 7, "VISUAL", 2⟩ trivialRng state0
      = SimOutcome.visualStarted (create_cells 3 trivialRng state0)
    ∧ start_sim ⟨3, 7, "Banana", 2⟩ trivialRng state0
      = SimOutcome.fullDone (start_full_sim 3 7 trivialRng state0) :=
  ⟨(mode_selection_case_insensitive ⟨3, 7, "VISUAL", 2⟩ trivialRng state0).1.mpr
     (by decide),
   (mode_selection_case_insensitive ⟨3, 7, "Banana", 2⟩ trivialRng state0).2
     (by decide)⟩
